import Mathlib

/-!
Verification of the authentication and credential-lifecycle subsystem of the
`fastapi-template` repository, shallowly embedded in Lean 4.

The embedding follows the source files:
  * `app/services/user.py`   — user store operations and `authenticate`
  * `app/api/deps.py`        — the authorization gate
                                (`get_current_user`, `get_current_active_user`,
                                 `get_current_active_superuser`)
  * `app/api/routes/users.py` — user CRUD routes
  * `app/api/routes/login.py` — login / password-recovery routes

The user store is modelled as a list of `User` records; SQLAlchemy session
operations become pure functions over that list.  The password hasher and the
two token codecs live in `app/core/security.py` and `app/utils/utils.py`,
which are not part of the sources; they are modelled from the specification
where noted.
-/

namespace FastapiTemplate

/-- The password hash digest.  Modelled from the spec: `app/core/security.py`
(`get_password_hash` / `verify_password`) is missing from the sources.  The
spec describes "a one-way, salted hash of a password" in a "deterministic
format tagged with algorithm/parameters".  The digest function itself is an
abstract deterministic function of the salt and the plaintext. -/
def digestOf (salt : Nat) (plaintext : String) : Nat :=
  plaintext.toList.foldl (fun a c => a * 131 + c.toNat) (7 + salt * 1000003)

/-- Modelled from the spec: a stored credential hash, the parsed content of
the hash string — an algorithm/parameter tag, the salt, and the digest. -/
structure HashString where
  alg : String
  salt : Nat
  digest : Nat
deriving DecidableEq, Repr

/-- Modelled from the spec: `hash(plaintext) -> hash-string`, salted.  The
salt is non-deterministic in the source; here it is an explicit argument. -/
def get_password_hash (plaintext : String) (salt : Nat) : HashString :=
  ⟨"bcrypt", salt, digestOf salt plaintext⟩

/-- Modelled from the spec: `verify(plaintext, hash-string) -> bool`
recomputes the digest under the stored salt and compares. -/
def verify_password (plaintext : String) (h : HashString) : Bool :=
  h.alg == "bcrypt" && h.digest == digestOf h.salt plaintext

/-- A stored principal, from `app/models/user.py` (`User`): id, email,
full name, hashed password, `is_active`, `is_superuser`. -/
structure User where
  id : Nat
  email : String
  full_name : String
  hashed_password : HashString
  is_active : Bool
  is_superuser : Bool
deriving DecidableEq, Repr

/-- The user store: the `users` table as a list of rows. -/
abbrev Store := List User

/-- Embeds `get_user_by_email` from `app/services/user.py`: `select(User).where
(User.email == email)`, `scalar_one_or_none` — at most one row by the email
uniqueness invariant; modelled as first match. -/
def get_user_by_email (store : Store) (email : String) : Option User :=
  store.find? (fun u => u.email == email)

/-- Embeds `get_user_by_id` from `app/services/user.py`: `session.get(User, user_id)`
— primary-key lookup. -/
def get_user_by_id (store : Store) (user_id : Nat) : Option User :=
  store.find? (fun u => u.id == user_id)

/-- Embeds `delete_user` from `app/services/user.py`: `session.delete(user)` —
removes the row with the user's primary key. -/
def delete_user (store : Store) (user : User) : Store :=
  store.filter (fun v => v.id != user.id)

/-- Embeds `authenticate` from `app/services/user.py`: look up by email; `None` if
absent; `None` if the password does not verify; else the user. -/
def authenticate (store : Store) (email password : String) : Option User :=
  match get_user_by_email store email with
  | none => none
  | some db_user =>
      if !(verify_password password db_user.hashed_password) then none
      else some db_user

/-! ## Token codec

`app/core/security.py` (`create_access_token`, `ALGORITHM`) and
`app/utils/utils.py` (`generate_password_reset_token`,
`verify_password_reset_token`) are not among the sources; the codecs are
modelled from the spec (§4.2, §4.3): a token is signed with a server-held
secret under a purpose-specific signing context ("distinct secret derivation
or salt"), carries a subject claim and an expiry, and verification fails on
signature mismatch, wrong purpose, malformed structure, missing subject, or
expiry in the past. -/

/-- Modelled from the spec: the signing context — domain separation between
the bearer-token and reset-token purposes. -/
inductive TokenPurpose
  | bearer
  | reset
deriving DecidableEq, Repr

/-- Modelled from the spec: the decoded subject claim of a signed token.
`sub` in a bearer token must parse as the store identity type (an id); a
reset token carries an email.  A claim that is not id-shaped is `text`. -/
inductive Claim
  | id (v : Nat)
  | text (s : String)
deriving DecidableEq, Repr

/-- Modelled from the spec: a structurally well-formed signed token:
purpose-scoped signing context, the secret it was signed with, an optional
subject claim, and an expiry timestamp. -/
structure SignedToken where
  purpose : TokenPurpose
  secret : String
  sub : Option Claim
  exp : Nat
deriving DecidableEq, Repr

/-- Modelled from the spec: a presented token string parses either into a
structurally well-formed signed token or is malformed. -/
inductive Token
  | malformed (raw : String)
  | signed (st : SignedToken)
deriving DecidableEq, Repr

/-- Modelled from the spec: `create_access_token(subject, expires_delta)`
from `app/core/security.py` — encodes `{sub: subject-id, exp: now+ttl}`
signed with the server secret in the bearer context. -/
def create_access_token (secret : String) (now ttl : Nat) (subject : Nat) : Token :=
  .signed ⟨.bearer, secret, some (.id subject), now + ttl⟩

/-- Modelled from the spec: `generate_password_reset_token(email)` from
`app/utils/utils.py` — signs `{purpose: "reset", email, exp: now+reset-ttl}`
in the reset signing context. -/
def generate_password_reset_token (secret : String) (now resetTtl : Nat)
    (email : String) : Token :=
  .signed ⟨.reset, secret, some (.text email), now + resetTtl⟩

/-- Modelled from the spec: `verify_password_reset_token(token)` from
`app/utils/utils.py` — returns the email claim, or `none` when the signature
is invalid, the purpose mismatches, the token is malformed or expired, or the
claim is not an email. -/
def verify_password_reset_token (secret : String) (now : Nat) (t : Token) :
    Option String :=
  match t with
  | .malformed _ => none
  | .signed st =>
      if st.purpose = .reset && st.secret == secret && decide (now < st.exp) then
        match st.sub with
        | some (.text e) => some e
        | _ => none
      else none

/-! ## Authorization gate (`app/api/deps.py`) -/

/-- An HTTP error raised by a route or dependency (`HTTPException`). -/
structure HTTPException where
  status_code : Nat
  detail : String
deriving DecidableEq, Repr

/-- The `InvalidToken` outcome: 403 "Could not validate credentials". -/
def couldNotValidate : HTTPException :=
  ⟨403, "Could not validate credentials"⟩

/-- Embeds `get_current_user` from `app/api/deps.py`: `jwt.decode` with the server
secret (failure — signature mismatch, wrong signing context, malformed
structure, or expired — raises `InvalidTokenError`), `TokenPayload`
validation (a `sub` that does not parse as a UUID raises `ValidationError`);
both map to 403 "Could not validate credentials", as does a missing `sub`;
then the store lookup by id, 404 "User not found" when absent. -/
def get_current_user (secret : String) (now : Nat) (store : Store)
    (token : Token) : Except HTTPException User :=
  match token with
  | .malformed _ => .error couldNotValidate
  | .signed st =>
      if st.purpose ≠ .bearer || st.secret ≠ secret || st.exp ≤ now then
        .error couldNotValidate
      else
        match st.sub with
        | none => .error couldNotValidate
        | some (.text _) => .error couldNotValidate
        | some (.id uid) =>
            match get_user_by_id store uid with
            | none => .error ⟨404, "User not found"⟩
            | some user => .ok user

/-- Embeds `get_current_active_user` from `app/api/deps.py`: 400 "Inactive user"
when `is_active is False`. -/
def get_current_active_user (secret : String) (now : Nat) (store : Store)
    (token : Token) : Except HTTPException User :=
  match get_current_user secret now store token with
  | .error e => .error e
  | .ok current_user =>
      if current_user.is_active = false then .error ⟨400, "Inactive user"⟩
      else .ok current_user

/-- Embeds `get_current_active_superuser` from `app/api/deps.py`: 403 "The user
doesn't have enough privileges" when not `is_superuser`. -/
def get_current_active_superuser (secret : String) (now : Nat) (store : Store)
    (token : Token) : Except HTTPException User :=
  match get_current_active_user secret now store token with
  | .error e => .error e
  | .ok current_user =>
      if !current_user.is_superuser then
        .error ⟨403, "The user doesn't have enough privileges"⟩
      else .ok current_user

/-! ## Partial update (`app/services/user.py` `update_user`) -/

/-- Embeds `UserUpdate` from `app/schemas/users.py`: every field optional; `none`
means the field was not provided (excluded by
`model_dump(exclude_unset=True)`). -/
structure UserUpdate where
  email : Option String := none
  full_name : Option String := none
  is_active : Option Bool := none
  is_superuser : Option Bool := none
  password : Option String := none
deriving DecidableEq, Repr

/-- Embeds `UserUpdateMe` from `app/schemas/users.py`: only `full_name` and `email`,
both optional. -/
structure UserUpdateMe where
  full_name : Option String := none
  email : Option String := none
deriving DecidableEq, Repr

/-- Since `update_user` accepts `UserUpdate | UserUpdateMe`; a `UserUpdateMe`
dump carries only its two keys. -/
def UserUpdateMe.toUpdate (p : UserUpdateMe) : UserUpdate :=
  { full_name := p.full_name, email := p.email }

/-- Embeds `update_user` from `app/services/user.py`: dump the provided fields; if
`password` is among them, replace it with `hashed_password := get_password_hash
(password)`; `setattr` each provided field onto the user; all other columns
keep their values.  The hash salt is the explicit salt argument. -/
def update_user (user : User) (user_in : UserUpdate) (salt : Nat) : User :=
  { user with
    email := user_in.email.getD user.email
    full_name := user_in.full_name.getD user.full_name
    is_active := user_in.is_active.getD user.is_active
    is_superuser := user_in.is_superuser.getD user.is_superuser
    hashed_password :=
      match user_in.password with
      | some pw => get_password_hash pw salt
      | none => user.hashed_password }

/-! ## User routes (`app/api/routes/users.py`) -/

/-- The `Message` response schema from `app/schemas/users.py`. -/
structure Message where
  message : String
deriving DecidableEq, Repr

/-- The flushed state of the store after an ORM object mutated by
`update_user` is committed: the row with that id is replaced. -/
def setUser (store : Store) (u : User) : Store :=
  store.map (fun v => if v.id = u.id then u else v)

/-- The email-collision guard shared by `update_user_me` and
`update_user_route`: Python `user_in.email and user_in.email != target.email
and await get_user_by_email(...)` — truthiness of the email string, then
difference from the target's current email, then an existing owner. -/
def emailConflict (store : Store) (targetEmail : String)
    (newEmail : Option String) : Bool :=
  match newEmail with
  | none => false
  | some e => e != "" && e != targetEmail && (get_user_by_email store e).isSome

/-- Embeds `update_user_me` from `app/api/routes/users.py`: 409 "User with this
email already exists" on collision, else apply `update_user` to the caller.
Returns the response and the resulting store. -/
def update_user_me (store : Store) (current_user : User)
    (user_in : UserUpdateMe) (salt : Nat) :
    Except HTTPException User × Store :=
  if emailConflict store current_user.email user_in.email then
    (.error ⟨409, "User with this email already exists"⟩, store)
  else
    let u := update_user current_user user_in.toUpdate salt
    (.ok u, setUser store u)

/-- Embeds `update_user_route` from `app/api/routes/users.py` (admin update by id;
the `get_current_active_superuser` dependency is enforced separately): 404
when the target id is absent, 409 on email collision against the target's
current email, else apply `update_user` to the target. -/
def update_user_route (store : Store) (user_id : Nat)
    (user_in : UserUpdate) (salt : Nat) :
    Except HTTPException User × Store :=
  match get_user_by_id store user_id with
  | none =>
      (.error ⟨404, "The user with this id does not exist in the system"⟩, store)
  | some user =>
      if emailConflict store user.email user_in.email then
        (.error ⟨409, "User with this email already exists"⟩, store)
      else
        let u := update_user user user_in salt
        (.ok u, setUser store u)

/-- Embeds `delete_user_me` from `app/api/routes/users.py`: a superuser may not
delete themselves (403 "Super users are not allowed to delete themselves");
otherwise the caller's row is deleted. -/
def delete_user_me (store : Store) (current_user : User) :
    Except HTTPException Message × Store :=
  if current_user.is_superuser then
    (.error ⟨403, "Super users are not allowed to delete themselves"⟩, store)
  else
    (.ok ⟨"User deleted successfully"⟩, delete_user store current_user)

/-- Embeds `delete_user_route` from `app/api/routes/users.py` (admin delete by id;
the caller passed the `get_current_active_superuser` dependency): 403 when
the target id equals the caller's own id, 404 when the target is absent,
else the target row is deleted. -/
def delete_user_route (store : Store) (current_user : User) (user_id : Nat) :
    Except HTTPException Message × Store :=
  if user_id = current_user.id then
    (.error ⟨403, "Super users are not allowed to delete themselves"⟩, store)
  else
    match get_user_by_id store user_id with
    | none => (.error ⟨404, "User not found"⟩, store)
    | some user => (.ok ⟨"User deleted successfully"⟩, delete_user store user)

/-! ## Password recovery (`app/api/routes/login.py`) -/

/-- Modelled from the spec: email delivery is "a side-effect sink that
receives a rendered message"; `generate_reset_password_email` / `send_email`
from `app/utils/utils.py` are not among the sources.  Recorded as the
recipient together with the reset token embedded in the message. -/
structure SentEmail where
  email_to : String
  token : Token
deriving DecidableEq, Repr

/-- Embeds `recover_password` from `app/api/routes/login.py`: when a user with the
email exists, generate a reset token and send the reset email; in every case
return the same `Message("Password recovery email sent")`. -/
def recover_password (secret : String) (now resetTtl : Nat) (store : Store)
    (email : String) : Message × List SentEmail :=
  match get_user_by_email store email with
  | some user =>
      (⟨"Password recovery email sent"⟩,
       [⟨user.email, generate_password_reset_token secret now resetTtl email⟩])
  | none => (⟨"Password recovery email sent"⟩, [])

/-! ## Concrete fixtures for witnesses -/

/-- A concrete non-superuser account. -/
def alice : User :=
  ⟨1, "alice@example.com", "Alice", get_password_hash "wonderland" 11, true, false⟩

/-- A concrete superuser account. -/
def bob : User :=
  ⟨2, "bob@example.com", "Bob", get_password_hash "builder" 22, true, true⟩

/-- A concrete deactivated account. -/
def carol : User :=
  ⟨3, "carol@example.com", "Carol", get_password_hash "checkers" 33, false, false⟩

/-- A concrete store holding the three fixtures. -/
def demoStore : Store := [alice, bob, carol]

/-! ## Claims -/

/-- C1: `authenticate` returns a principal exactly when a principal with the
email exists and the password verifies against its stored hash; an unknown
email and a wrong password both return the same failure value `none`. -/
theorem authenticate_spec (store : Store) (email password : String) (u : User) :
    (authenticate store email password = some u ↔
      get_user_by_email store email = some u ∧
        verify_password password u.hashed_password = true) ∧
    (get_user_by_email store email = none →
      authenticate store email password = none) ∧
    (∀ v, get_user_by_email store email = some v →
      verify_password password v.hashed_password = false →
      authenticate store email password = none) := by
  unfold authenticate
  cases h : get_user_by_email store email with
  | none => simp
  | some w =>
      refine ⟨?_, by simp, ?_⟩
      · by_cases hv : verify_password password w.hashed_password = true
        · simp only [hv, Bool.not_true, Bool.false_eq_true, if_false,
            Option.some.injEq]
          constructor
          · rintro rfl
            exact ⟨rfl, hv⟩
          · rintro ⟨hw, _⟩
            cases hw
            rfl
        · simp only [Bool.not_eq_true] at hv
          simp only [hv, Bool.not_false, if_true]
          constructor
          · intro hc
            exact absurd hc (by simp)
          · rintro ⟨hw, hvu⟩
            cases hw
            exact absurd hvu (by simp [hv])
      · intro v hv hverify
        cases hv
        simp [hverify]

/-- C1 witness: a successful login, an unknown email, and a wrong password
on the concrete store. -/
theorem authenticate_spec_witness :
    authenticate demoStore "alice@example.com" "wonderland" = some alice ∧
    authenticate demoStore "nobody@example.com" "whatever" = none ∧
    authenticate demoStore "alice@example.com" "wrong-password" = none := by
  refine ⟨?_, ?_, ?_⟩
  · exact (authenticate_spec demoStore "alice@example.com" "wonderland" alice).1.2
      ⟨by decide, by decide⟩
  · exact (authenticate_spec demoStore "nobody@example.com" "whatever" alice).2.1
      (by decide)
  · exact (authenticate_spec demoStore "alice@example.com" "wrong-password" alice).2.2
      alice (by decide) (by decide)

/-- C7: hashing the same plaintext under two different salts yields two
different hash values, and the plaintext verifies against both. -/
theorem hash_password_salted (plaintext : String) (s1 s2 : Nat) (h : s1 ≠ s2) :
    get_password_hash plaintext s1 ≠ get_password_hash plaintext s2 ∧
    verify_password plaintext (get_password_hash plaintext s1) = true ∧
    verify_password plaintext (get_password_hash plaintext s2) = true := by
  refine ⟨?_, ?_, ?_⟩
  · intro hc
    exact h (congrArg HashString.salt hc)
  · simp [verify_password, get_password_hash]
  · simp [verify_password, get_password_hash]

/-- C7 witness: two concrete salts on a concrete plaintext. -/
theorem hash_password_salted_witness :
    (11 : Nat) ≠ 22 ∧
      (get_password_hash "hunter2pass" 11 ≠ get_password_hash "hunter2pass" 22 ∧
       verify_password "hunter2pass" (get_password_hash "hunter2pass" 11) = true ∧
       verify_password "hunter2pass" (get_password_hash "hunter2pass" 22) = true) :=
  ⟨by decide, hash_password_salted "hunter2pass" 11 22 (by decide)⟩

/-- C2: for a stored principal `p`, resolving a bearer token issued for
`p.id` yields `p` while the clock is before issue time + TTL, and fails with
the `InvalidToken` error once the clock passes issue time + TTL. -/
theorem bearer_token_roundtrip (secret : String) (store : Store) (p : User)
    (now_issue ttl now_check : Nat)
    (hp : get_user_by_id store p.id = some p) :
    (now_check < now_issue + ttl →
      get_current_user secret now_check store
        (create_access_token secret now_issue ttl p.id) = .ok p) ∧
    (now_issue + ttl ≤ now_check →
      get_current_user secret now_check store
        (create_access_token secret now_issue ttl p.id) =
          .error couldNotValidate) := by
  constructor
  · intro hlt
    simp [get_current_user, create_access_token, Nat.not_le.mpr hlt, hp]
  · intro hle
    simp [get_current_user, create_access_token, hle]

/-- C2 witness: a token issued at time 90 with TTL 30 for the stored fixture
resolves to it at time 100 and is rejected at time 130. -/
theorem bearer_token_roundtrip_witness :
    get_current_user "server-secret" 100 demoStore
      (create_access_token "server-secret" 90 30 alice.id) = .ok alice ∧
    get_current_user "server-secret" 130 demoStore
      (create_access_token "server-secret" 90 30 alice.id) =
        .error couldNotValidate :=
  ⟨(bearer_token_roundtrip "server-secret" demoStore alice 90 30 100
      (by decide)).1 (by decide),
   (bearer_token_roundtrip "server-secret" demoStore alice 90 30 130
      (by decide)).2 (by decide)⟩

/-- C3: bearer-token verification fails with the single `InvalidToken` error
(403 "Could not validate credentials") exactly when the token is malformed,
the signature (secret or signing context) mismatches, `exp` is passed, the
`sub` claim is missing, or `sub` does not parse as an id; every such failure
produces that identical error value. -/
theorem invalid_token_cases (secret : String) (now : Nat) (store : Store)
    (t : Token) :
    get_current_user secret now store t = .error couldNotValidate ↔
      (match t with
       | .malformed _ => True
       | .signed st =>
           st.purpose ≠ .bearer ∨ st.secret ≠ secret ∨ st.exp ≤ now ∨
             st.sub = none ∨ ∃ s, st.sub = some (.text s)) := by
  cases t with
  | malformed raw => simp [get_current_user]
  | signed st =>
      by_cases h1 : st.purpose = .bearer
      · by_cases h2 : st.secret = secret
        · by_cases h3 : st.exp ≤ now
          · simp [get_current_user, h1, h2, h3]
          · cases hs : st.sub with
            | none => simp [get_current_user, h1, h2, h3, hs]
            | some c =>
                cases c with
                | text s => simp [get_current_user, h1, h2, h3, hs]
                | id uid =>
                    cases hu : get_user_by_id store uid with
                    | none =>
                        simp [get_current_user, h1, h2, h3, hs, hu,
                          couldNotValidate]
                    | some u => simp [get_current_user, h1, h2, h3, hs, hu]
        · simp [get_current_user, h2]
      · simp [get_current_user, h1]

/-- C6: purpose isolation — a bearer token presented to the reset-token
verifier yields no email, and a reset token presented to bearer-token
verification fails with the `InvalidToken` error. -/
theorem token_purpose_isolation (secret : String) (store : Store)
    (now_issue bearer_ttl reset_ttl now_check uid : Nat) (email : String) :
    verify_password_reset_token secret now_check
      (create_access_token secret now_issue bearer_ttl uid) = none ∧
    get_current_user secret now_check store
      (generate_password_reset_token secret now_issue reset_ttl email) =
        .error couldNotValidate := by
  constructor
  · simp [verify_password_reset_token, create_access_token]
  · simp [get_current_user, generate_password_reset_token]

/-- C4: the gate checks run in the fixed order token-validity,
principal-existence, `is_active`, then `is_superuser`: a token failure
propagates unchanged through both outer gates; a valid token whose subject is
absent from the store yields 404 "User not found", distinct from the
`InvalidToken` error; a resolved inactive principal yields 400 "Inactive
user" at both outer gates, before any superuser check; an active
non-superuser yields 403 at the admin gate; terminal success yields the
resolved principal unchanged. -/
theorem authorization_gate_order (secret : String) (now : Nat) (store : Store)
    (t : Token) (u : User) :
    (∀ e, get_current_user secret now store t = .error e →
       get_current_active_user secret now store t = .error e ∧
       get_current_active_superuser secret now store t = .error e) ∧
    (∀ st uid, t = .signed st → st.purpose = .bearer → st.secret = secret →
       now < st.exp → st.sub = some (.id uid) →
       get_user_by_id store uid = none →
       get_current_user secret now store t = .error ⟨404, "User not found"⟩ ∧
       (⟨404, "User not found"⟩ : HTTPException) ≠ couldNotValidate) ∧
    (get_current_user secret now store t = .ok u → u.is_active = false →
       get_current_active_user secret now store t =
         .error ⟨400, "Inactive user"⟩ ∧
       get_current_active_superuser secret now store t =
         .error ⟨400, "Inactive user"⟩) ∧
    (get_current_user secret now store t = .ok u → u.is_active = true →
       u.is_superuser = false →
       get_current_active_superuser secret now store t =
         .error ⟨403, "The user doesn't have enough privileges"⟩) ∧
    (get_current_user secret now store t = .ok u → u.is_active = true →
       u.is_superuser = true →
       get_current_active_superuser secret now store t = .ok u) := by
  refine ⟨?_, ?_, ?_, ?_, ?_⟩
  · intro e he
    constructor
    · simp [get_current_active_user, he]
    · simp [get_current_active_superuser, get_current_active_user, he]
  · rintro st uid rfl hpu hsec hexp hsub hmiss
    constructor
    · simp [get_current_user, hpu, hsec, Nat.not_le.mpr hexp, hsub, hmiss]
    · simp [couldNotValidate]
  · intro hok hina
    constructor
    · simp [get_current_active_user, hok, hina]
    · simp [get_current_active_superuser, get_current_active_user, hok, hina]
  · intro hok hact hsup
    simp [get_current_active_superuser, get_current_active_user, hok, hact,
      hsup]
  · intro hok hact hsup
    simp [get_current_active_superuser, get_current_active_user, hok, hact,
      hsup]

/-- C4 witness: one concrete request per gate outcome on the fixture store —
a malformed token, a valid token for an unknown id, and valid tokens for the
inactive, the active non-superuser, and the active superuser fixtures. -/
theorem authorization_gate_order_witness :
    get_current_active_superuser "server-secret" 0 demoStore
      (.malformed "not-a-jwt") = .error couldNotValidate ∧
    get_current_user "server-secret" 0 demoStore
      (.signed ⟨.bearer, "server-secret", some (.id 99), 10⟩) =
        .error ⟨404, "User not found"⟩ ∧
    get_current_active_superuser "server-secret" 0 demoStore
      (.signed ⟨.bearer, "server-secret", some (.id 3), 10⟩) =
        .error ⟨400, "Inactive user"⟩ ∧
    get_current_active_superuser "server-secret" 0 demoStore
      (.signed ⟨.bearer, "server-secret", some (.id 1), 10⟩) =
        .error ⟨403, "The user doesn't have enough privileges"⟩ ∧
    get_current_active_superuser "server-secret" 0 demoStore
      (.signed ⟨.bearer, "server-secret", some (.id 2), 10⟩) = .ok bob := by
  refine ⟨?_, ?_, ?_, ?_, ?_⟩
  · exact ((authorization_gate_order "server-secret" 0 demoStore
      (.malformed "not-a-jwt") alice).1 couldNotValidate (by rfl)).2
  · exact ((authorization_gate_order "server-secret" 0 demoStore
      (.signed ⟨.bearer, "server-secret", some (.id 99), 10⟩) alice).2.1
      ⟨.bearer, "server-secret", some (.id 99), 10⟩ 99 rfl rfl rfl
      (by decide) rfl (by rfl)).1
  · exact ((authorization_gate_order "server-secret" 0 demoStore
      (.signed ⟨.bearer, "server-secret", some (.id 3), 10⟩) carol).2.2.1
      (by rfl) (by rfl)).2
  · exact (authorization_gate_order "server-secret" 0 demoStore
      (.signed ⟨.bearer, "server-secret", some (.id 1), 10⟩) alice).2.2.2.1
      (by rfl) (by rfl) (by rfl)
  · exact (authorization_gate_order "server-secret" 0 demoStore
      (.signed ⟨.bearer, "server-secret", some (.id 2), 10⟩) bob).2.2.2.2
      (by rfl) (by rfl) (by rfl)

/-- C5: a superuser deleting their own account fails with 403 "Super users
are not allowed to delete themselves" and the store is unchanged, on both the
delete-self path and the admin delete-by-id path with the caller's own id; a
non-superuser deleting their own account via the delete-self path succeeds
and their row is gone. -/
theorem superuser_self_delete (store : Store) (u : User) :
    (u.is_superuser = true →
       delete_user_me store u =
         (.error ⟨403, "Super users are not allowed to delete themselves"⟩,
          store) ∧
       delete_user_route store u u.id =
         (.error ⟨403, "Super users are not allowed to delete themselves"⟩,
          store)) ∧
    (u.is_superuser = false →
       delete_user_me store u =
         (.ok ⟨"User deleted successfully"⟩, delete_user store u) ∧
       get_user_by_id (delete_user store u) u.id = none) := by
  constructor
  · intro hs
    constructor
    · simp [delete_user_me, hs]
    · simp [delete_user_route]
  · intro hs
    constructor
    · simp [delete_user_me, hs]
    · unfold get_user_by_id delete_user
      rw [List.find?_eq_none]
      intro x hx
      have hne := (List.mem_filter.mp hx).2
      simpa using hne

/-- C5 witness: the superuser fixture is blocked on both paths; the
non-superuser fixture deletes itself successfully. -/
theorem superuser_self_delete_witness :
    delete_user_me demoStore bob =
      (.error ⟨403, "Super users are not allowed to delete themselves"⟩,
       demoStore) ∧
    delete_user_route demoStore bob bob.id =
      (.error ⟨403, "Super users are not allowed to delete themselves"⟩,
       demoStore) ∧
    delete_user_me demoStore alice =
      (.ok ⟨"User deleted successfully"⟩, delete_user demoStore alice) ∧
    get_user_by_id (delete_user demoStore alice) alice.id = none := by
  refine ⟨?_, ?_, ?_, ?_⟩
  · exact ((superuser_self_delete demoStore bob).1 (by rfl)).1
  · exact ((superuser_self_delete demoStore bob).1 (by rfl)).2
  · exact ((superuser_self_delete demoStore alice).2 (by rfl)).1
  · exact ((superuser_self_delete demoStore alice).2 (by rfl)).2

/-- C8: on both the self-update and the admin update-by-id paths, a new
email that differs from the target's current email and already has an owner
fails with 409 "User with this email already exists" and the store is
unchanged; a new email equal to the target's own current email succeeds with
the update applied, with no condition on the rest of the store (no collision
check is performed). -/
theorem update_email_collision (store : Store) (salt : Nat) :
    (∀ (current_user : User) (user_in : UserUpdateMe) (e : String) (w : User),
       user_in.email = some e → e ≠ "" → e ≠ current_user.email →
       get_user_by_email store e = some w →
       update_user_me store current_user user_in salt =
         (.error ⟨409, "User with this email already exists"⟩, store)) ∧
    (∀ (current_user : User) (user_in : UserUpdateMe),
       user_in.email = some current_user.email →
       update_user_me store current_user user_in salt =
         (.ok (update_user current_user user_in.toUpdate salt),
          setUser store (update_user current_user user_in.toUpdate salt))) ∧
    (∀ (user_id : Nat) (target : User) (user_in : UserUpdate) (e : String)
       (w : User),
       get_user_by_id store user_id = some target →
       user_in.email = some e → e ≠ "" → e ≠ target.email →
       get_user_by_email store e = some w →
       update_user_route store user_id user_in salt =
         (.error ⟨409, "User with this email already exists"⟩, store)) ∧
    (∀ (user_id : Nat) (target : User) (user_in : UserUpdate),
       get_user_by_id store user_id = some target →
       user_in.email = some target.email →
       update_user_route store user_id user_in salt =
         (.ok (update_user target user_in salt),
          setUser store (update_user target user_in salt))) := by
  refine ⟨?_, ?_, ?_, ?_⟩
  · intro current_user user_in e w he hne hdiff hw
    simp [update_user_me, emailConflict, he, hne, hdiff, hw]
  · intro current_user user_in he
    simp [update_user_me, emailConflict, he]
  · intro user_id target user_in e w htgt he hne hdiff hw
    simp [update_user_route, htgt, emailConflict, he, hne, hdiff, hw]
  · intro user_id target user_in htgt he
    simp [update_user_route, htgt, emailConflict, he]

/-- C8 witness: on the fixture store, changing the non-superuser's email to
the superuser's email is a 409 on both paths; re-submitting the own current
email succeeds on both paths. -/
theorem update_email_collision_witness :
    update_user_me demoStore alice ⟨none, some "bob@example.com"⟩ 5 =
      (.error ⟨409, "User with this email already exists"⟩, demoStore) ∧
    update_user_me demoStore alice ⟨none, some "alice@example.com"⟩ 5 =
      (.ok (update_user alice
              (UserUpdateMe.toUpdate ⟨none, some "alice@example.com"⟩) 5),
       setUser demoStore
         (update_user alice
            (UserUpdateMe.toUpdate ⟨none, some "alice@example.com"⟩) 5)) ∧
    update_user_route demoStore 1
        { email := some "bob@example.com" } 5 =
      (.error ⟨409, "User with this email already exists"⟩, demoStore) ∧
    update_user_route demoStore 1
        { email := some "alice@example.com" } 5 =
      (.ok (update_user alice { email := some "alice@example.com" } 5),
       setUser demoStore
         (update_user alice { email := some "alice@example.com" } 5)) := by
  refine ⟨?_, ?_, ?_, ?_⟩
  · exact (update_email_collision demoStore 5).1 alice
      ⟨none, some "bob@example.com"⟩ "bob@example.com" bob rfl (by decide)
      (by decide) (by rfl)
  · exact (update_email_collision demoStore 5).2.1 alice
      ⟨none, some "alice@example.com"⟩ (by rfl)
  · exact (update_email_collision demoStore 5).2.2.1 1 alice
      { email := some "bob@example.com" } "bob@example.com" bob (by rfl) rfl
      (by decide) (by decide) (by rfl)
  · exact (update_email_collision demoStore 5).2.2.2 1 alice
      { email := some "alice@example.com" } (by rfl) (by rfl)

/-- C9: the partial update modifies exactly the fields present in the patch
— every field absent from the patch keeps its prior value, every field
present receives the patch value, the id is untouched — and a present
password is stored only as its hash in `hashed_password`. -/
theorem update_user_frame (user : User) (user_in : UserUpdate) (salt : Nat) :
    (update_user user user_in salt).id = user.id ∧
    (update_user user user_in salt).email =
      user_in.email.getD user.email ∧
    (update_user user user_in salt).full_name =
      user_in.full_name.getD user.full_name ∧
    (update_user user user_in salt).is_active =
      user_in.is_active.getD user.is_active ∧
    (update_user user user_in salt).is_superuser =
      user_in.is_superuser.getD user.is_superuser ∧
    (user_in.password = none →
       (update_user user user_in salt).hashed_password =
         user.hashed_password) ∧
    (∀ pw, user_in.password = some pw →
       (update_user user user_in salt).hashed_password =
         get_password_hash pw salt) := by
  refine ⟨rfl, rfl, rfl, rfl, rfl, ?_, ?_⟩
  · intro h
    simp [update_user, h]
  · intro pw h
    simp [update_user, h]

/-- C9 witness: an empty patch leaves the fixture unchanged; a
password-only patch rewrites only the hash. -/
theorem update_user_frame_witness :
    (update_user alice {} 5).hashed_password = alice.hashed_password ∧
    (update_user alice { password := some "new-password" } 5).hashed_password
      = get_password_hash "new-password" 5 := by
  constructor
  · exact (update_user_frame alice {} 5).2.2.2.2.2.1 rfl
  · exact (update_user_frame alice { password := some "new-password" } 5
      ).2.2.2.2.2.2 "new-password" rfl

/-- C10: password recovery returns the identical success message for every
email and every store state — account existence never influences the
response value. -/
theorem recover_password_uniform (secret : String) (now reset_ttl : Nat)
    (store store2 : Store) (email email2 : String) :
    (recover_password secret now reset_ttl store email).1 =
      ⟨"Password recovery email sent"⟩ ∧
    (recover_password secret now reset_ttl store email).1 =
      (recover_password secret now reset_ttl store2 email2).1 := by
  have h : ∀ (s : Store) (e : String),
      (recover_password secret now reset_ttl s e).1 =
        ⟨"Password recovery email sent"⟩ := by
    intro s e
    unfold recover_password
    cases get_user_by_email s e <;> rfl
  exact ⟨h store email, by rw [h store email, h store2 email2]⟩

end FastapiTemplate
